import Mathlib

/-!
Verification of the XY-AP100H BLE amplifier bridge (src/main.py).

The development shallowly embeds the device command codec, the four BLE
device operations (set volume, get volume, get input, set input), and the
HTTP status handler.  Bytes are modelled as `Nat` with checksums taken
`% 256` (the source computes `sum(data) & 0xFF`); the fallible BLE
transport (bleak) is modelled by an explicit behaviour record saying which
transport calls succeed and what data they deliver, and each operation
returns its result together with the trace of transport events it issued.
-/

namespace XYAP100H

/-! ## Command codec (pure frame construction and parsing) -/

/-- Volume-set frame, from `set_volume_async` (src/main.py lines 48-50):
`[0x7e, 0x0f, 0x1d, volume]` followed by ten `0x00` bytes, then the
checksum `sum(data) & 0xFF` appended. -/
def volumeFrame (volume : Nat) : List Nat :=
  let data : List Nat :=
    [0x7e, 0x0f, 0x1d, volume, 0x00, 0x00, 0x00, 0x00, 0x00, 0x00, 0x00, 0x00, 0x00, 0x00]
  data ++ [data.sum % 256]

/-- Input-select frame, from `handle_input_async` (src/main.py lines 118-120):
`[0x7e, 0x05, input_code, 0x00]` with the checksum `sum(data) & 0xFF`
appended. -/
def inputFrame (inputCode : Nat) : List Nat :=
  let data : List Nat := [0x7e, 0x05, inputCode, 0x00]
  data ++ [data.sum % 256]

/-- Decoding of the get-input read response, from `get_input_async`
(src/main.py lines 100-107): `None` when fewer than 5 bytes arrived,
otherwise the byte at offset 4. -/
def decodeInputStatus (bs : List Nat) : Option Nat :=
  if bs.length < 5 then none else some (bs.getD 4 0)

/-- Decoding of a volume notification payload, from the callback
`notify_volume_callback` inside `get_volume_async` (src/main.py lines
63-68): usable only when strictly more than 5 bytes arrived, in which case
the byte at offset 5 is the volume. -/
def decodeVolumeNotification (bs : List Nat) : Option Nat :=
  if bs.length > 5 then some (bs.getD 5 0) else none

/-- Read-side input-code table of `http_get_status` (src/main.py lines
174-181): the dict `{0x16: aux, 0x14: bt, 0x17: sndcard, 0x04: usb}`
looked up with default `"Unknown"`. -/
def resolveInputName (code : Nat) : String :=
  if code = 0x16 then "aux"
  else if code = 0x14 then "bt"
  else if code = 0x17 then "sndcard"
  else if code = 0x04 then "usb"
  else "Unknown"

/-- Write-side input-code table of `http_set_input` (src/main.py lines
205-210): `{aux: 0x16, bt: 0x14, sndcard: 0x15, usb: 0x04}`; names outside
the table are rejected by the handler before dispatch. -/
def inputCodeOf (name : String) : Option Nat :=
  if name = "aux" then some 0x16
  else if name = "bt" then some 0x14
  else if name = "sndcard" then some 0x15
  else if name = "usb" then some 0x04
  else none

/-- `http_get_status` feeds the (possibly absent) input code into the
read-side table; a missing code (`None` in Python) is not a key of the
dict, so it also resolves to `"Unknown"`. -/
def resolveInputOpt (code : Option Nat) : String :=
  match code with
  | some c => resolveInputName c
  | none => "Unknown"

/-! ## Transport model and device sessions -/

/-- Errors an operation can surface.  `invalidArgument` embeds the
`ValueError` raised for an out-of-range volume; `transport` embeds any
bleak failure (connect, write, read, notify, disconnect).
`malformedResponse` is never produced by the code; the constructor exists
only so a specification-level statement about it can be written down. -/
inductive Err where
  | invalidArgument : Err
  | transport : Err
  | malformedResponse : Err
deriving DecidableEq

/-- Trace of transport calls a session issues, at the granularity of the
bleak API used in src/main.py. -/
inductive Ev where
  | connect : Ev
  | write : List Nat → Ev
  | read : Ev
  | startNotify : Ev
  | stopNotify : Ev
  | sleep : Ev
  | disconnect : Ev

/-- One deterministic behaviour of the BLE transport: which calls succeed
(in Python: do not raise), what `read_gatt_char` returns, and which
notification payloads the device pushes during the wait window. -/
structure BleBehavior where
  connectOk : Bool
  writeOk : Bool
  readResult : Option (List Nat)
  startNotifyOk : Bool
  stopNotifyOk : Bool
  disconnectOk : Bool
  notifications : List (List Nat)

/-- The accumulated `volume_level` after the callback has processed every
pushed payload: each decodable payload overwrites the value, an
undecodable one leaves it unchanged (src/main.py lines 63-68). -/
def volumeFromNotifications (ns : List (List Nat)) : Option Nat :=
  ns.foldl
    (fun acc p =>
      match decodeVolumeNotification p with
      | some v => some v
      | none => acc)
    none

/-- `set_volume_async` (src/main.py lines 42-56): range check before any
transport call, then connect, write the volume frame, and disconnect in a
`finally` block.  An exception raised by `disconnect` in the `finally`
replaces the pending result, as in Python. -/
def set_volume_async (b : BleBehavior) (volume : Int) : Except Err Unit × List Ev :=
  if ¬ (1 ≤ volume ∧ volume ≤ 31) then (Except.error Err.invalidArgument, [])
  else if b.connectOk = false then (Except.error Err.transport, [Ev.connect])
  else
    let frame := volumeFrame volume.toNat
    let tryRes : Except Err Unit :=
      if b.writeOk then Except.ok () else Except.error Err.transport
    let res := if b.disconnectOk then tryRes else Except.error Err.transport
    (res, [Ev.connect, Ev.write frame, Ev.disconnect])

/-- `get_volume_async` (src/main.py lines 60-90): connect, start
notifications, read the command characteristic to provoke a push, wait,
stop notifications, return the captured volume level; disconnect in a
`finally` block. -/
def get_volume_async (b : BleBehavior) : Except Err (Option Nat) × List Ev :=
  if b.connectOk = false then (Except.error Err.transport, [Ev.connect])
  else
    let inner : Except Err (Option Nat) × List Ev :=
      if b.startNotifyOk = false then (Except.error Err.transport, [Ev.startNotify])
      else
        match b.readResult with
        | none => (Except.error Err.transport, [Ev.startNotify, Ev.read])
        | some _ =>
          if b.stopNotifyOk = false then
            (Except.error Err.transport, [Ev.startNotify, Ev.read, Ev.sleep, Ev.stopNotify])
          else
            (Except.ok (volumeFromNotifications b.notifications),
             [Ev.startNotify, Ev.read, Ev.sleep, Ev.stopNotify])
    let res := if b.disconnectOk then inner.1 else Except.error Err.transport
    (res, Ev.connect :: inner.2 ++ [Ev.disconnect])

/-- `get_input_async` (src/main.py lines 94-110): connect, read the
command characteristic, decode offset 4 (or return `None` when fewer than
5 bytes arrived); disconnect in a `finally` block. -/
def get_input_async (b : BleBehavior) : Except Err (Option Nat) × List Ev :=
  if b.connectOk = false then (Except.error Err.transport, [Ev.connect])
  else
    let inner : Except Err (Option Nat) × List Ev :=
      match b.readResult with
      | none => (Except.error Err.transport, [Ev.read])
      | some bs => (Except.ok (decodeInputStatus bs), [Ev.read])
    let res := if b.disconnectOk then inner.1 else Except.error Err.transport
    (res, Ev.connect :: inner.2 ++ [Ev.disconnect])

/-- `handle_input_async` (src/main.py lines 114-128): connect, write the
input-select frame, disconnect in a `finally` block. -/
def handle_input_async (b : BleBehavior) (inputCode : Nat) : Except Err Unit × List Ev :=
  if b.connectOk = false then (Except.error Err.transport, [Ev.connect])
  else
    let frame := inputFrame inputCode
    let tryRes : Except Err Unit :=
      if b.writeOk then Except.ok () else Except.error Err.transport
    let res := if b.disconnectOk then tryRes else Except.error Err.transport
    (res, [Ev.connect, Ev.write frame, Ev.disconnect])

/-- Rendered `/status` response (src/main.py lines 162-190): HTTP code,
the `status` field, the `volume` field and the `input` field; any
exception from either operation is rendered as a 500 error body. -/
structure StatusResponse where
  httpCode : Nat
  status : String
  volume : Option Nat
  inputName : String
deriving DecidableEq

/-- `http_get_status` (src/main.py lines 162-190): run the get-volume and
get-input operations and render the JSON body, resolving the input code
through the read-side table with default `"Unknown"`. -/
def http_get_status (b : BleBehavior) : StatusResponse :=
  match (get_volume_async b).1 with
  | Except.error _ => ⟨500, "error", none, ""⟩
  | Except.ok vol =>
    match (get_input_async b).1 with
    | Except.error _ => ⟨500, "error", none, ""⟩
    | Except.ok inp => ⟨200, "success", vol, resolveInputOpt inp⟩

/-! ## Session accounting -/

/-- Number of `connect` calls in a trace. -/
def countConnect : List Ev → Nat
  | [] => 0
  | Ev.connect :: t => countConnect t + 1
  | _ :: t => countConnect t

/-- Number of `disconnect` calls in a trace. -/
def countDisconnect : List Ev → Nat
  | [] => 0
  | Ev.disconnect :: t => countDisconnect t + 1
  | _ :: t => countDisconnect t

/-- Whether a connection is still held after replaying a trace, starting
from holding state `cur`. -/
def heldAfter : Bool → List Ev → Bool
  | cur, [] => cur
  | _, Ev.connect :: t => heldAfter true t
  | _, Ev.disconnect :: t => heldAfter false t
  | cur, _ :: t => heldAfter cur t

/-- A session left the transport clean: no connection is held at exit,
and when a connection was successfully acquired the session called
`disconnect` exactly once, as its final transport call; when no connection
was acquired it never called `disconnect` at all. -/
def sessionClean (b : BleBehavior) (t : List Ev) : Prop :=
  (b.connectOk && heldAfter false t) = false ∧
  (if b.connectOk = true ∧ countConnect t = 1 then
      countDisconnect t = 1 ∧ t.getLast? = some Ev.disconnect
    else countDisconnect t = 0)

/-! ## Async execution bridge (cooperative scheduling model)

`run_async_task` (src/main.py lines 28-30) submits every operation's
coroutine to the single background event loop started by
`start_background_loop` (lines 14-24) and blocks the calling thread on the
future.  Two concurrent callers therefore have two pending coroutines on
the same loop; the loop runs one coroutine at a time but may switch
between them at every `await` (connect, write, read, sleep, disconnect).
A session is abstracted to the step sequence connect, exchange,
disconnect, each step an atomic stretch between suspension points, and the
loop's possible executions are exactly the interleavings of the two
callers' step sequences. -/

/-- One atomic stretch of a device session between suspension points. -/
inductive SStep where
  | connect : SStep
  | exchange : SStep
  | disconnect : SStep
deriving DecidableEq

/-- The step sequence every device operation follows: acquire the
connection, perform the protocol exchange, release the connection. -/
def sessionSteps : List SStep := [SStep.connect, SStep.exchange, SStep.disconnect]

/-- A caller's steps tagged with the caller's identity. -/
def taggedSteps (caller : Bool) (l : List SStep) : List (Bool × SStep) :=
  l.map (fun s => (caller, s))

/-- `Interleave l1 l2 t`: `t` is an interleaving of `l1` and `l2` — the
schedules a single cooperative event loop can produce from two pending
coroutines, switching only at suspension points. -/
inductive Interleave {α : Type} : List α → List α → List α → Prop where
  | nil : Interleave [] [] []
  | left (a : α) {l1 l2 l : List α} :
      Interleave l1 l2 l → Interleave (a :: l1) l2 (a :: l)
  | right (a : α) {l1 l2 l : List α} :
      Interleave l1 l2 l → Interleave l1 (a :: l2) (a :: l)

/-- Connection-holding state of one caller after one of its steps. -/
def stepActive (act : Bool) : SStep → Bool
  | SStep.connect => true
  | SStep.disconnect => false
  | SStep.exchange => act

/-- Scan a schedule tracking whether each caller currently holds its
transport connection; `true` when at some point both do. -/
def overlapAux : Bool → Bool → List (Bool × SStep) → Bool
  | _, _, [] => false
  | a, b, (tag, s) :: rest =>
    let a2 := if tag then stepActive a s else a
    let b2 := if tag then b else stepActive b s
    (a2 && b2) || overlapAux a2 b2 rest

/-- Whether the two callers' transport sessions overlap in time somewhere
in the schedule. -/
def sessionsOverlap (t : List (Bool × SStep)) : Bool :=
  overlapAux false false t

/-- A schedule the shared event loop can produce in which the two
sessions do overlap: both callers connect before either disconnects. -/
def overlappedSchedule : List (Bool × SStep) :=
  [(true, SStep.connect), (false, SStep.connect),
   (true, SStep.exchange), (false, SStep.exchange),
   (true, SStep.disconnect), (false, SStep.disconnect)]

/-- The fully serial schedule: all of the first caller's session, then
all of the second caller's. -/
def serialSchedule : List (Bool × SStep) :=
  taggedSteps true sessionSteps ++ taggedSteps false sessionSteps

/-- In any interleaving whose left source satisfies `p` throughout and
whose right source never does, filtering by `p` recovers the left source:
the loop never reorders one caller's own steps. -/
theorem interleave_filter_left {α : Type} (p : α → Bool) :
    ∀ {l1 l2 t : List α}, Interleave l1 l2 t →
      (∀ a ∈ l1, p a = true) → (∀ a ∈ l2, p a = false) → t.filter p = l1 := by
  intro l1 l2 t h
  induction h with
  | nil => intro _ _; rfl
  | left a h ih =>
    intro h1 h2
    have hpa : p a = true := h1 a (List.mem_cons_self a _)
    simp only [List.filter_cons, hpa]
    exact congrArg (a :: ·) (ih (fun x hx => h1 x (List.mem_cons_of_mem a hx)) h2)
  | right a h ih =>
    intro h1 h2
    have hpa : p a = false := h2 a (List.mem_cons_self a _)
    simp only [List.filter_cons, hpa]
    exact ih h1 (fun x hx => h2 x (List.mem_cons_of_mem a hx))

/-! ## Concrete behaviours used by witnesses and counterexamples -/

/-- A transport on which every call succeeds, reads return 5 usable
bytes, and one decodable 6-byte notification arrives. -/
def allOkBehavior : BleBehavior :=
  ⟨true, true, some [0, 0, 0, 0, 0x16], true, true, true, [[0, 0, 0, 0, 0, 9]]⟩

/-- A transport on which every call succeeds but the read returns only 4
bytes. -/
def shortReadBehavior : BleBehavior :=
  ⟨true, true, some [1, 2, 3, 4], true, true, true, []⟩

/-- A fully working transport whose read returns `bs`. -/
def readBehavior (bs : List Nat) : BleBehavior :=
  ⟨true, true, some bs, true, true, true, []⟩

/-- A working transport whose read is 4 bytes and whose only notification
is an unusable 5-byte payload. -/
def shortDataBehavior : BleBehavior :=
  ⟨true, true, some [1, 2, 3, 4], true, true, true, [[7, 7, 7, 7, 7]]⟩

/-! ## Claim theorems -/

/-- C1: for every volume in [1,31], the volume command is exactly 15
bytes, of the shape `0x7E, 0x0F, 0x1D, volume`, ten `0x00` bytes, then a
checksum equal to the sum of the first 14 bytes modulo 256. -/
theorem volume_command_shape (v : Nat) (h1 : 1 ≤ v) (h2 : v ≤ 31) :
    volumeFrame v =
      [0x7e, 0x0f, 0x1d, v] ++ List.replicate 10 0x00 ++ [(0x7e + 0x0f + 0x1d + v) % 256] ∧
    (volumeFrame v).length = 15 ∧
    ((volumeFrame v).take 14).sum % 256 = (volumeFrame v).getD 14 0 := by
  refine ⟨?_, ?_, ?_⟩ <;> simp [volumeFrame, List.replicate] <;> ring_nf

/-- Witness for C1 at volume 31. -/
theorem volume_command_shape_witness :
    volumeFrame 31 =
      [0x7e, 0x0f, 0x1d, 31] ++ List.replicate 10 0x00 ++ [(0x7e + 0x0f + 0x1d + 31) % 256] ∧
    (volumeFrame 31).length = 15 ∧
    ((volumeFrame 31).take 14).sum % 256 = (volumeFrame 31).getD 14 0 :=
  volume_command_shape 31 (by decide) (by decide)

/-- C2 counterexample: on a 4-byte read response the get-input exchange
does not fail at all — it succeeds with `None`; in particular it does not
fail with `MalformedResponse` as the claim states. -/
theorem get_input_short_read_not_error :
    (get_input_async shortReadBehavior).1 = Except.ok none ∧
    (get_input_async shortReadBehavior).1 ≠ Except.error Err.malformedResponse := by
  refine ⟨rfl, ?_⟩
  intro h
  exact Except.noConfusion
    ((rfl : (get_input_async shortReadBehavior).1 = Except.ok none).symm.trans h)

/-- C2 amended: the get-input decoding returns `None` (a successful
no-value result, not an error) for every input shorter than 5 bytes, and
for every input of at least 5 bytes returns the byte at offset 4; the
exchange surfaces exactly that decoding result. -/
theorem decode_input_status_behavior (bs : List Nat) :
    (bs.length < 5 → decodeInputStatus bs = none) ∧
    (5 ≤ bs.length → decodeInputStatus bs = some (bs.getD 4 0)) ∧
    (get_input_async (readBehavior bs)).1 = Except.ok (decodeInputStatus bs) := by
  refine ⟨?_, ?_, rfl⟩
  · intro h; simp [decodeInputStatus, h]
  · intro h; simp [decodeInputStatus, Nat.not_lt.mpr h]

/-- Witness for the amended C2 on a 4-byte and a 5-byte input. -/
theorem decode_input_status_behavior_witness :
    decodeInputStatus [1, 2, 3, 4] = none ∧
    decodeInputStatus [9, 8, 7, 6, 5] = some ([9, 8, 7, 6, 5].getD 4 0) :=
  ⟨(decode_input_status_behavior [1, 2, 3, 4]).1 (by decide),
   (decode_input_status_behavior [9, 8, 7, 6, 5]).2.1 (by decide)⟩

/-- C3: every device operation leaves the transport clean under every
transport behaviour: no connection is held on exit, a session that
acquired a connection disconnects exactly once and as its last transport
call, and a session that never acquired one never disconnects. -/
theorem sessions_always_disconnect (b : BleBehavior) (v : Int) (code : Nat) :
    sessionClean b (set_volume_async b v).2 ∧
    sessionClean b (get_volume_async b).2 ∧
    sessionClean b (get_input_async b).2 ∧
    sessionClean b (handle_input_async b code).2 := by
  obtain ⟨co, wo, rr, sno, stno, dco, ns⟩ := b
  refine ⟨?_, ?_, ?_, ?_⟩ <;>
    cases co <;>
    simp [set_volume_async, get_volume_async, get_input_async, handle_input_async,
      sessionClean, countConnect, countDisconnect, heldAfter] <;>
    first
      | rfl
      | (cases sno <;> cases rr <;> cases stno <;>
          simp [countConnect, countDisconnect, heldAfter])
      | (split <;> simp [countConnect, countDisconnect, heldAfter])

/-- C4 counterexample: the input command for `0x16` carries checksum
`0x99`, not `0x8F` as the claim states (`0x7E + 0x05 + 0x16 + 0x00 = 0x99`). -/
theorem input_frame_checksum_not_8f :
    inputFrame 0x16 = [0x7e, 0x05, 0x16, 0x00, 0x99] ∧
    inputFrame 0x16 ≠ [0x7e, 0x05, 0x16, 0x00, 0x8f] := by
  refine ⟨rfl, ?_⟩
  decide

/-- C4 amended: `encodeInputCommand(0x16)` returns the 5-byte frame
`[0x7E, 0x05, 0x16, 0x00, 0x99]`: the 4-byte payload followed by a
checksum equal to the low 8 bits of the payload sum, which is `0x99`. -/
theorem input_frame_0x16 :
    inputFrame 0x16 = [0x7e, 0x05, 0x16, 0x00, (0x7e + 0x05 + 0x16 + 0x00) % 256] ∧
    (0x7e + 0x05 + 0x16 + 0x00) % 256 = 0x99 ∧
    (inputFrame 0x16).length = 5 := by
  refine ⟨rfl, rfl, rfl⟩

/-- C5: for every volume outside [1,31] the set-volume operation fails
with `InvalidArgument` and issues no transport call at all (empty trace:
no connect, write, or read). -/
theorem set_volume_rejects_before_io (b : BleBehavior) (v : Int)
    (h : ¬ (1 ≤ v ∧ v ≤ 31)) :
    set_volume_async b v = (Except.error Err.invalidArgument, []) := by
  simp [set_volume_async, h]

/-- Witness for C5 at volumes 0 and 32. -/
theorem set_volume_rejects_before_io_witness :
    set_volume_async allOkBehavior 0 = (Except.error Err.invalidArgument, []) ∧
    set_volume_async allOkBehavior 32 = (Except.error Err.invalidArgument, []) :=
  ⟨set_volume_rejects_before_io allOkBehavior 0 (by decide),
   set_volume_rejects_before_io allOkBehavior 32 (by decide)⟩

/-- C6: the read-side table maps 0x16, 0x14, 0x17, 0x04 to aux, bt,
sndcard, usb, and every other code resolves to "Unknown" (no error). -/
theorem resolve_input_name_table :
    resolveInputName 0x16 = "aux" ∧ resolveInputName 0x14 = "bt" ∧
    resolveInputName 0x17 = "sndcard" ∧ resolveInputName 0x04 = "usb" ∧
    resolveInputName 0x99 = "Unknown" ∧
    ∀ c : Nat, c ≠ 0x16 → c ≠ 0x14 → c ≠ 0x17 → c ≠ 0x04 →
      resolveInputName c = "Unknown" := by
  refine ⟨rfl, rfl, rfl, rfl, rfl, ?_⟩
  intro c h1 h2 h3 h4
  simp [resolveInputName, h1, h2, h3, h4]

/-- Witness for C6 at the unmapped code 0x33. -/
theorem resolve_input_name_table_witness : resolveInputName 0x33 = "Unknown" :=
  resolve_input_name_table.2.2.2.2.2 0x33 (by decide) (by decide) (by decide) (by decide)

/-- C7: a notification payload of length at most 5 decodes to `None`,
and a longer payload decodes to the byte at offset 5. -/
theorem decode_volume_notification_spec (bs : List Nat) :
    (bs.length ≤ 5 → decodeVolumeNotification bs = none) ∧
    (5 < bs.length → decodeVolumeNotification bs = some (bs.getD 5 0)) := by
  constructor
  · intro h; simp [decodeVolumeNotification, Nat.not_lt.mpr h]
  · intro h; simp [decodeVolumeNotification, h]

/-- Witness for C7 on a 6-byte payload ending in 0x0F and a 5-byte one. -/
theorem decode_volume_notification_spec_witness :
    decodeVolumeNotification [1, 2, 3, 4, 5, 0x0f] = some ([1, 2, 3, 4, 5, 0x0f].getD 5 0) ∧
    decodeVolumeNotification [1, 2, 3, 4, 5] = none :=
  ⟨(decode_volume_notification_spec [1, 2, 3, 4, 5, 0x0f]).2 (by decide),
   (decode_volume_notification_spec [1, 2, 3, 4, 5]).1 (by decide)⟩

/-- Interleaving is symmetric in its two sources. -/
theorem interleave_symm {α : Type} {l1 l2 t : List α}
    (h : Interleave l1 l2 t) : Interleave l2 l1 t := by
  induction h with
  | nil => exact Interleave.nil
  | left a _ ih => exact Interleave.right a ih
  | right a _ ih => exact Interleave.left a ih

/-- If every pushed payload is 5 bytes or shorter, the notify callback
never updates the captured volume level. -/
theorem volumeFromNotifications_eq_none :
    ∀ ns : List (List Nat), (∀ p ∈ ns, p.length ≤ 5) →
      volumeFromNotifications ns = none
  | [], _ => rfl
  | p :: t, h => by
    have hp : decodeVolumeNotification p = none := by
      have hl := h p (List.mem_cons_self p t)
      simp [decodeVolumeNotification, Nat.not_lt.mpr hl]
    have step : volumeFromNotifications (p :: t) = volumeFromNotifications t := by
      unfold volumeFromNotifications
      simp [List.foldl_cons, hp]
    exact step.trans
      (volumeFromNotifications_eq_none t (fun q hq => h q (List.mem_cons_of_mem p hq)))

/-- C8: the write-side and read-side tables agree on aux, bt and usb
(the round trip through write code and read resolution is the identity),
but disagree exactly on sndcard: the write side sends 0x15 while the read
side resolves 0x17 to sndcard and 0x15 to "Unknown". -/
theorem input_code_asymmetry :
    (inputCodeOf "aux" = some 0x16 ∧ resolveInputName 0x16 = "aux") ∧
    (inputCodeOf "bt" = some 0x14 ∧ resolveInputName 0x14 = "bt") ∧
    (inputCodeOf "usb" = some 0x04 ∧ resolveInputName 0x04 = "usb") ∧
    (inputCodeOf "sndcard" = some 0x15 ∧ resolveInputName 0x15 = "Unknown" ∧
      resolveInputName 0x15 ≠ "sndcard" ∧ resolveInputName 0x17 = "sndcard") := by
  refine ⟨⟨rfl, rfl⟩, ⟨rfl, rfl⟩, ⟨rfl, rfl⟩, rfl, rfl, ?_, rfl⟩
  decide

/-- C9 counterexample: the shared event loop can produce the schedule
`overlappedSchedule` — a legal interleaving of two callers' sessions at
suspension points — in which the two transport sessions overlap in time
(both callers are connected simultaneously). -/
theorem bridge_admits_overlap :
    Interleave (taggedSteps true sessionSteps) (taggedSteps false sessionSteps)
      overlappedSchedule ∧
    sessionsOverlap overlappedSchedule = true := by
  constructor
  · exact Interleave.left _ (Interleave.right _ (Interleave.left _
      (Interleave.right _ (Interleave.left _ (Interleave.right _ Interleave.nil)))))
  · decide

/-- C9 amended: the bridge serializes the individual steps of both
callers on the single event loop — every schedule it can produce
preserves each caller's own step order — but whole transport sessions are
not mutually exclusive: a legal cooperative schedule exists in which the
two sessions overlap in time. -/
theorem bridge_serializes_steps_not_sessions :
    (∀ t : List (Bool × SStep),
        Interleave (taggedSteps true sessionSteps) (taggedSteps false sessionSteps) t →
          t.filter (fun q => q.1) = taggedSteps true sessionSteps ∧
          t.filter (fun q => !q.1) = taggedSteps false sessionSteps) ∧
    Interleave (taggedSteps true sessionSteps) (taggedSteps false sessionSteps)
      overlappedSchedule ∧
    sessionsOverlap overlappedSchedule = true := by
  refine ⟨?_, ?_, ?_⟩
  · intro t ht
    constructor
    · exact interleave_filter_left _ ht (by decide) (by decide)
    · exact interleave_filter_left _ (interleave_symm ht) (by decide) (by decide)
  · exact Interleave.left _ (Interleave.right _ (Interleave.left _
      (Interleave.right _ (Interleave.left _ (Interleave.right _ Interleave.nil)))))
  · decide

/-- Witness for the amended C9 at the fully serial schedule. -/
theorem bridge_serializes_steps_not_sessions_witness :
    serialSchedule.filter (fun q => q.1) = taggedSteps true sessionSteps ∧
    serialSchedule.filter (fun q => !q.1) = taggedSteps false sessionSteps :=
  bridge_serializes_steps_not_sessions.1 serialSchedule
    (Interleave.left _ (Interleave.left _ (Interleave.left _
      (Interleave.right _ (Interleave.right _ (Interleave.right _ Interleave.nil))))))

/-- C10: short or missing device data is not an error at the status
endpoint: when the transport itself works, a read response shorter than 5
bytes makes get-input succeed with `None`, unusable notifications make
get-volume succeed with `None`, and `/status` renders HTTP 200 with
status "success", input "Unknown" and a null volume. -/
theorem status_short_data_success (b : BleBehavior) (rs : List Nat)
    (hc : b.connectOk = true) (hsn : b.startNotifyOk = true)
    (hst : b.stopNotifyOk = true) (hd : b.disconnectOk = true)
    (hr : b.readResult = some rs) (hlen : rs.length < 5)
    (hn : ∀ p ∈ b.notifications, p.length ≤ 5) :
    (get_input_async b).1 = Except.ok none ∧
    (get_volume_async b).1 = Except.ok none ∧
    http_get_status b = ⟨200, "success", none, "Unknown"⟩ := by
  have hi : (get_input_async b).1 = Except.ok none := by
    simp [get_input_async, hc, hd, hr, decodeInputStatus, hlen]
  have hv : (get_volume_async b).1 = Except.ok none := by
    simp [get_volume_async, hc, hsn, hst, hd, hr,
      volumeFromNotifications_eq_none _ hn]
  refine ⟨hi, hv, ?_⟩
  simp [http_get_status, hi, hv, resolveInputOpt]

/-- Witness for C10 on a 4-byte read and a single 5-byte notification. -/
theorem status_short_data_success_witness :
    (get_input_async shortDataBehavior).1 = Except.ok none ∧
    (get_volume_async shortDataBehavior).1 = Except.ok none ∧
    http_get_status shortDataBehavior = ⟨200, "success", none, "Unknown"⟩ :=
  status_short_data_success shortDataBehavior [1, 2, 3, 4]
    rfl rfl rfl rfl rfl (by decide) (by decide)

end XYAP100H
